import Mathlib

set_option maxHeartbeats 1000000

/-!
Verification development for pyroved/models/trvae.py (class trVAE).

The embedding works over rational-valued matrices: a data batch, a latent
batch, or a coordinate grid is a list of rows of rationals.  Image batches
enter in flattened form (one row of length H*W per sample), matching the
flattening the source itself performs via x.view(-1, reshape_) and the
fully connected encoder.  External collaborators that live outside the
source file (the encoder and decoder networks, the coordinate transformer,
the dataloader) are either passed in as explicit function parameters with
their interface contracts stated as hypotheses, or modelled from the spec
where so marked.
-/

/-- A row of rational numbers: one data sample (flattened), one latent
vector, or one grid point. -/
abbrev Row : Type := List ℚ

/-- A matrix: batch of rows, or a coordinate grid (points times coords). -/
abbrev Mat : Type := List Row

/-- Shape predicate: m has exactly r rows, each of length c. -/
def isRect (m : Mat) (r c : Nat) : Prop :=
  m.length = r ∧ ∀ row ∈ m, row.length = c

instance (m : Mat) (r c : Nat) : Decidable (isRect m r c) := by
  unfold isRect; infer_instance

/-- Width of the first row (the column count of a nonempty rectangular
matrix). -/
def matWidth (m : Mat) : Nat := (m.headD []).length

/-- A geometric component returned by split_latent.  The source returns
either Python None (1D phi), the zero-dimensional placeholder tensor tt(0)
(unused phi or dx slots in 2D), a one-column slice z[:, 0] (shape (batch,)),
or a two-dimensional slice such as z[:, 1:3]. -/
inductive GeomPart where
  | pyNone : GeomPart
  | scalar (q : ℚ) : GeomPart
  | vec (v : Row) : GeomPart
  | mat (dm : Mat) : GeomPart
deriving DecidableEq

/-- Number of latent columns a geometric component consumes: absent parts
(Python None or the tt(0) placeholder) consume none, z[:, 0] consumes one,
a matrix slice consumes its row width. -/
def GeomPart.width : GeomPart → Nat
  | GeomPart.pyNone => 0
  | GeomPart.scalar _ => 0
  | GeomPart.vec _ => 1
  | GeomPart.mat dm => matWidth dm

/-- A geometric component is absent when it is Python None or the
zero-dimensional placeholder tensor tt(0): it consumes no latent columns. -/
def GeomPart.isAbsent : GeomPart → Bool
  | GeomPart.pyNone => true
  | GeomPart.scalar _ => true
  | _ => false

/-- Arguments passed to the decoder network: the transformed (or reference)
coordinate grids together with the latent code when coord > 0
(sDecoderNet), or the latent code alone (fcDecoderNet). -/
inductive DecArgs where
  | withCoords (grids : List Mat) (z : Mat) : DecArgs
  | plain (z : Mat) : DecArgs

/-- State of a constructed trVAE instance: the fields set by __init__
(lines 103-128).  The encoder and decoder networks are external
collaborators, held as function fields; encoder_z and decoder are the
attributes written by set_encoder and set_decoder (lines 213-223). -/
structure TRVAE where
  ndim : Nat
  coord : Int
  z_dim : Nat
  num_classes : Nat
  grid : Mat
  t_prior : Row
  encoder_net : Mat → Mat × Mat
  decoder_net : DecArgs → Mat
  encoder_z : Option (Mat → Mat × Mat)
  decoder : Option (DecArgs → Mat)

/-- Modelled from the spec: generate_grid (external utility, not under src)
builds a fixed reference grid of spatial coordinates matching the data
shape, a (L, 1) sequence for 1D data and a (H*W, 2) mesh for 2D data.
Only this shape contract is relied upon by the claims; the concrete
coordinate values stand in for the normalized mesh. -/
def generate_grid (data_dim : List Nat) : Mat :=
  match data_dim with
  | [n] => (List.range n).map (fun i => [(i : ℚ)])
  | [h, w] => (List.range (h * w)).map (fun i => [((i / w : Nat) : ℚ), ((i % w : Nat) : ℚ)])
  | _ => []

/-- Embedding of trVAE.__init__ (lines 103-128), the pure part: the 1D
collapse of coord (lines 108-109), the coord validation (lines 113-114),
and the derived fields z_dim, grid and t_prior (lines 120-127).  The
external encoder and decoder networks are passed in as functions (the
source constructs fcEncoderNet and a decoder net here); dy_prior defaults
to dx_prior at the call sites, mirroring kwargs.get on line 125. -/
def trVAE_init (data_dim : List Nat) (latent_dim : Nat) (coord : Int)
    (num_classes : Nat) (dx_prior dy_prior : ℚ)
    (encF : Mat → Mat × Mat) (decF : DecArgs → Mat) : Except String TRVAE :=
  let ndim := data_dim.length
  let coord2 := if ndim = 1 ∧ 0 < coord then 1 else coord
  if coord2 = 0 ∨ coord2 = 1 ∨ coord2 = 2 ∨ coord2 = 3 then
    Except.ok
      { ndim := ndim
        coord := coord2
        z_dim := latent_dim + coord2.toNat
        num_classes := num_classes
        grid := generate_grid data_dim
        t_prior := if ndim = 2 then [dx_prior, dy_prior] else [dx_prior]
        encoder_net := encF
        decoder_net := decF
        encoder_z := none
        decoder := none }
  else
    Except.error "ValueError: coord argument must be 0, 1, 2 or 3"

/-- Embedding of trVAE.split_latent (lines 187-211): fixed slicing of the
latent batch into (phi, dx, z_content).  List.take and List.drop share
Python slice semantics exactly; z[:, 0] is the head of each row (rows are
nonempty whenever the width hypotheses of the theorems hold, matching the
minimum z_dim the source guarantees). -/
def TRVAE.split_latent (m : TRVAE) (z : Mat) : GeomPart × GeomPart × Mat :=
  if m.ndim = 1 then
    (GeomPart.pyNone, GeomPart.mat (z.map (fun r => r.take 1)), z.map (fun r => r.drop 1))
  else if m.coord = 3 then
    (GeomPart.vec (z.map (fun r => r.headD 0)),
     GeomPart.mat (z.map (fun r => (r.drop 1).take 2)),
     z.map (fun r => r.drop 3))
  else if m.coord = 2 then
    (GeomPart.scalar 0,
     GeomPart.mat (z.map (fun r => r.take 2)),
     z.map (fun r => r.drop 2))
  else if m.coord = 1 then
    (GeomPart.vec (z.map (fun r => r.headD 0)),
     GeomPart.scalar 0,
     z.map (fun r => r.drop 1))
  else
    (GeomPart.scalar 0, GeomPart.scalar 0, z)

/-- Total width bookkeeping of a split: columns consumed by phi, by dx and
by the content part. -/
def widthSum (t : GeomPart × GeomPart × Mat) : Nat :=
  t.1.width + t.2.1.width + matWidth t.2.2

/-- Absolute-value sum of a geometric component, embedding
torch.sum(dx.abs()) from line 153.  split_latent never returns Python None
for the dx slot, so the pyNone case is unreachable there. -/
def geomSum : GeomPart → ℚ
  | GeomPart.pyNone => 0
  | GeomPart.scalar q => |q|
  | GeomPart.vec v => (v.map (fun q => |q|)).sum
  | GeomPart.mat dm => (dm.map (fun r => (r.map (fun q => |q|)).sum)).sum

/-- Embedding of the rescale on line 154, dx = (dx * self.t_prior): a
row-wise elementwise product with the translation prior.  Torch raises on a
broadcast mismatch between the trailing dimensions; in every reachable run
dx has the same row width as t_prior (2 for 2D data, 1 for 1D data).  The
non-matrix cases are unreachable because the rescale is guarded by a
nonzero absolute sum and split_latent only produces a matrix dx or the
zero placeholder. -/
def rescaleDx (t_prior : Row) (dx : GeomPart) : Except String GeomPart :=
  match dx with
  | GeomPart.mat dm =>
      if ∀ r ∈ dm, r.length = t_prior.length then
        Except.ok (GeomPart.mat (dm.map (fun r => r.zipWith (fun a b => a * b) t_prior)))
      else Except.error "RuntimeError: broadcast mismatch in dx times t_prior"
  | _ => Except.error "RuntimeError: unsupported dx operand in rescale"

/-- Rotation applied to one grid point of sample i: identity when phi is
Python None, rotation by the broadcast angle when phi is the scalar
placeholder, rotation by the per-sample encoded angle when phi is z[:, 0].
The planar rotation map itself is the external rotFn parameter. -/
def rotAt (rotFn : ℚ → Row → Row) (phi : GeomPart) (i : Nat) (p : Row) : Row :=
  match phi with
  | GeomPart.pyNone => p
  | GeomPart.scalar q => rotFn q p
  | GeomPart.vec v => rotFn (v.getD i 0) p
  | GeomPart.mat dm => rotFn ((dm.getD i []).headD 0) p

/-- Translation applied to one grid point of sample i: no offset for Python
None, a broadcast scalar offset for the placeholder, the per-sample row
offset for a matrix dx (torch broadcast of the unsqueezed (batch, 1, dims)
offset over all grid points of the sample). -/
def offsetAt (dx : GeomPart) (i : Nat) (p : Row) : Row :=
  match dx with
  | GeomPart.pyNone => p
  | GeomPart.scalar q => p.map (fun c => c + q)
  | GeomPart.vec v => p.map (fun c => c + v.getD i 0)
  | GeomPart.mat dm => p.zipWith (fun c d => c + d) (dm.getD i [])

/-- Modelled from the spec: transform_coordinates (external utility, not
under src) rotates every grid point of sample i by the angle of sample i
(identity when phi is absent) and then adds the translation offset of
sample i (no offset when dx is absent).  The planar rotation primitive is
kept abstract as rotFn since it is trigonometric and external. -/
def transform_coordinates (rotFn : ℚ → Row → Row) (grids : List Mat)
    (phi dx : GeomPart) : List Mat :=
  (List.range grids.length).map
    (fun i => (grids.getD i []).map (fun p => offsetAt dx i (rotAt rotFn phi i p)))

/-- Embedding of the geometric block of trVAE.model (lines 149-157): split
the latent batch, rescale dx by the translation prior when its absolute
sum is nonzero (lines 153-154), expand the reference grid to the batch
(line 156) and transform it (line 157).  Returns the transformed grids and
the content part of the latent batch. -/
def coordStep (m : TRVAE) (rotFn : ℚ → Row → Row) (batch : Nat) (z : Mat) :
    Except String (List Mat × Mat) := do
  let s := m.split_latent z
  let dx ← if geomSum s.2.1 ≠ 0 then rescaleDx m.t_prior s.2.1 else pure s.2.1
  pure (transform_coordinates rotFn (List.replicate batch m.grid) s.1 dx, s.2.2)

/-- Concatenation of the class label onto the latent code (line 160),
torch.cat([z, y], dim=-1) when y is present. -/
def catLabel (z : Mat) (y : Option Mat) : Mat :=
  match y with
  | none => z
  | some ym => z.zipWith (fun a b => a ++ b) ym

/-- Embedding of trVAE.model (lines 130-167).  The latent batch z is the
value of the pyro.sample site on line 148; under the prior (and under the
guide during ELBO optimization) it has shape (batch, z_dim).  The final
conditional embeds the sampler scoring on lines 165-167, which requires
the decoded location, viewed as (-1, reshape_), to match the flattened
observation elementwise; samples enter this embedding already flattened.
pyro.module registration and the KLD scale factor beta affect only
gradient bookkeeping of the external inference engine and have no
data-flow into the returned value. -/
def modelRun (m : TRVAE) (rotFn : ℚ → Row → Row) (x : Mat) (z : Mat)
    (y : Option Mat) : Except String Mat := do
  let dargs ←
    if 0 < m.coord then do
      let step ← coordStep m rotFn x.length z
      pure (DecArgs.withCoords step.1 (catLabel step.2 y))
    else
      pure (DecArgs.plain (catLabel z y))
  let loc := m.decoder_net dargs
  if loc.map (fun r => r.length) = x.map (fun r => r.length) then
    pure loc
  else
    Except.error "RuntimeError: sampler scoring shape mismatch"

/-- The (z_loc, z_scale) pair computed inside trVAE.guide on line 182 by
the encoder network. -/
def guideEncoded (m : TRVAE) (x : Mat) : Mat × Mat := m.encoder_net x

/-- Embedding of trVAE.guide (lines 169-185): encode x into (z_loc,
z_scale), then sample the latent site from Normal(z_loc, z_scale), which
requires the two parameter tensors to have matching shapes.  The guide
body has no return statement, so a successful call returns Python None,
embedded as Option.none. -/
def guideRun (m : TRVAE) (x : Mat) : Except String (Option (Mat × Mat)) :=
  let p := guideEncoded m x
  if p.1.map (fun r => r.length) = p.2.map (fun r => r.length) then
    Except.ok none
  else
    Except.error "RuntimeError: shape mismatch in Normal parameters"

/-- Embedding of trVAE.set_encoder (lines 213-217): assigns the encoder_z
attribute.  Because trVAE subclasses nn.Module (line 23), assigning a
network to an attribute also registers it as a submodule; in this
embedding that registration is the Option field becoming some, which
state_dict_keys below reads.  No data-path operation reads the field. -/
def TRVAE.set_encoder (m : TRVAE) (net : Mat → Mat × Mat) : TRVAE :=
  { m with encoder_z := some net }

/-- Embedding of trVAE.set_decoder (lines 219-223): assigns the decoder
attribute, registering the passed network as a submodule exactly as
set_encoder does for encoder_z. -/
def TRVAE.set_decoder (m : TRVAE) (net : DecArgs → Mat) : TRVAE :=
  { m with decoder := some net }

/-- Modelled from the spec: the persisted weights are a flat mapping from
parameter name to tensor collected by nn.Module.state_dict from every
registered submodule (external nn.Module semantics).  The embedding keeps
it at the granularity of submodule attribute names: encoder_net and
decoder_net are always registered by __init__ (lines 110-118), and
encoder_z or decoder appear once the corresponding setter has run. -/
def TRVAE.state_dict_keys (m : TRVAE) : List String :=
  ["encoder_net", "decoder_net"]
  ++ (match m.encoder_z with | some _ => ["encoder_z"] | none => [])
  ++ (match m.decoder with | some _ => ["decoder"] | none => [])

/-- Embedding of trVAE.save_weights (lines 315-319): writes
self.state_dict(), here its set of submodule keys. -/
def save_weights (m : TRVAE) : List String := m.state_dict_keys

/-- Embedding of trVAE.load_weights (lines 321-326):
self.load_state_dict(weights) restores strictly, raising a structural
mismatch error when the saved keys differ from the architecture's own. -/
def load_weights (m : TRVAE) (weights : List String) : Except String Unit :=
  if weights = m.state_dict_keys then Except.ok ()
  else Except.error "RuntimeError: state_dict key mismatch"

/-- Consecutive chunks of size k (fuel-structured so the kernel can
evaluate it; the fuel argument equals the list length at every call). -/
def chunkListAux (k : Nat) : Nat → Mat → List Mat
  | _, [] => []
  | 0, x => [x]
  | Nat.succ fuel, x =>
      if k = 0 then [x] else x.take k :: chunkListAux k fuel (x.drop k)

/-- Split a batch into consecutive chunks of size k. -/
def chunkList (k : Nat) (x : Mat) : List Mat := chunkListAux k x.length x

/-- Modelled from the spec: the default batch size used by the external
batching machinery when the caller gives none.  Its exact value is
external to src; 100 is a stand-in and no claim depends on it beyond it
being a fixed default. -/
def default_batch_size : Nat := 100

/-- Modelled from the spec: init_dataloader (external utility, not under
src) wraps a data tensor in a loader of consecutive batches of the
requested size, falling back to the fixed default; shuffling is disabled
at every call site here, so order is preserved. -/
def init_dataloader (kwargs : Option Nat) (x : Mat) : List Mat :=
  chunkList (kwargs.getD default_batch_size) x

/-- Dynamic input accepted by the batch drivers: a single batch tensor, a
DataLoader over batches, or any other Python object (with a description
used only in error text). -/
inductive PyInput where
  | tensor (x : Mat) : PyInput
  | dataloader (batches : List Mat) : PyInput
  | other (desc : String) : PyInput

/-- One batch through the encoder inside _encode (lines 232-236):
torch.cat of the (z_loc, z_scale) pair along the last dimension, i.e. a
row-wise append.  The torch.no_grad context disables gradient tracking
only; it has no data flow. -/
def encodeBatch (m : TRVAE) (b : Mat) : Mat :=
  ((m.encoder_net b).1).zipWith (fun a c => a ++ c) (m.encoder_net b).2

/-- Embedding of trVAE._encode (lines 225-245): reject anything that is
neither a tensor nor a DataLoader with a TypeError naming the accepted
forms (lines 238-239), wrap a tensor into a loader built from the kwargs
(line 241), run each batch through the encoder and concatenate the
per-batch outputs (lines 242-245). -/
def _encode (m : TRVAE) (x_new : PyInput) (kwargs : Option Nat) :
    Except String Mat :=
  match x_new with
  | PyInput.tensor x =>
      Except.ok (((init_dataloader kwargs x).map (fun b => encodeBatch m b)).flatten)
  | PyInput.dataloader bs =>
      Except.ok ((bs.map (fun b => encodeBatch m b)).flatten)
  | PyInput.other _ =>
      Except.error "TypeError: Pass data as torch.Tensor or DataLoader object"

/-- Embedding of trVAE.encode (lines 247-254).  Line 252 reads
z = self._encode(x_new): the kwargs received by encode are not forwarded,
so _encode always sees an empty kwargs here.  Line 253 unpacks
z.split(self.z_dim, 1) into exactly two pieces, which requires the row
width to lie in (z_dim, 2*z_dim]; the pieces are the first z_dim and the
next z_dim columns. -/
def encode (m : TRVAE) (x_new : PyInput) (kwargs : Option Nat) :
    Except String (Mat × Mat) := do
  let z ← _encode m x_new none
  if ∀ r ∈ z, m.z_dim < r.length ∧ r.length ≤ 2 * m.z_dim then
    pure (z.map (fun r => r.take m.z_dim), z.map (fun r => (r.drop m.z_dim).take m.z_dim))
  else
    Except.error "ValueError: unpack of z.split failed"

/-- The batch partition _encode iterates over for a given input and
kwargs. -/
def _encode_batches (x_new : PyInput) (kwargs : Option Nat) : List Mat :=
  match x_new with
  | PyInput.tensor x => init_dataloader kwargs x
  | PyInput.dataloader bs => bs
  | PyInput.other _ => []

/-- The batch partition encode actually iterates over: encode invokes
_encode without forwarding its kwargs (line 252), so the loader is always
built with empty kwargs no matter what the caller passed to encode. -/
def encode_batches (x_new : PyInput) (kwargs : Option Nat) : List Mat :=
  _encode_batches x_new none

/-- Embedding of trVAE._decode (lines 256-271): wrap the latent batch in a
loader (line 265, kwargs are forwarded here), prepend the expanded
reference grid when coord > 0 (lines 268-269), run the decoder on each
batch and concatenate (lines 270-271).  No input-type validation happens
in _decode. -/
def _decode (m : TRVAE) (z_new : Mat) (kwargs : Option Nat) : Mat :=
  ((init_dataloader kwargs z_new).map (fun zb =>
    m.decoder_net
      (if 0 < m.coord then DecArgs.withCoords (List.replicate zb.length m.grid) zb
       else DecArgs.plain zb))).flatten

/-- Embedding of trVAE.decode (lines 273-284): line 280 calls
z.to(self.device) on the raw argument, which raises AttributeError on any
object that is not a tensor (including a DataLoader); a tensor then has
the optional label appended (line 282) and is passed to _decode with the
kwargs forwarded (line 283). -/
def decode (m : TRVAE) (z_new : PyInput) (y : Option Mat) (kwargs : Option Nat) :
    Except String Mat :=
  match z_new with
  | PyInput.tensor zm => Except.ok (_decode m (catLabel zm y) kwargs)
  | PyInput.dataloader _ => Except.error "AttributeError: object has no attribute to"
  | PyInput.other _ => Except.error "AttributeError: object has no attribute to"

/-- Modelled from the spec: to_onehot (external utility, not under src)
encodes a class index as a one-hot row of the given width. -/
def to_onehot (i n : Nat) : Row :=
  (List.range n).map (fun j => if j = i then 1 else 0)

/-- Embedding of trVAE.manifold2d (lines 286-313), the decoding data path.
generate_latent_grid is external and built on the probit function, so the
d by d latent grid is passed in as the latentGrid parameter; the class
label is appended row-wise when num_classes > 0 (lines 291-298), the
reference grid is prepended when coord is truthy (lines 300-302), and the
decoder output is returned (lines 303-313; plotting is I/O only). -/
def manifold2d (latentGrid : Nat → Mat) (m : TRVAE) (d : Nat) (label : Nat) : Mat :=
  let z0 := latentGrid d
  let z1 :=
    if 0 < m.num_classes then z0.map (fun r => r ++ to_onehot label m.num_classes)
    else z0
  m.decoder_net
    (if m.coord ≠ 0 then DecArgs.withCoords (List.replicate z1.length m.grid) z1
     else DecArgs.plain z1)

/-- Global process state touched by trVAE.__init__: the shared Pyro
parameter store (names of registered parameters) and the global torch
seed. -/
structure GlobalState where
  param_store : List String
  torch_seed : Option Int
deriving DecidableEq

/-- Modelled from the spec: pyro.clear_param_store (line 104) erases every
entry of the shared parameter store, including parameters registered by
previously constructed instances. -/
def pyro_clear_param_store (gs : GlobalState) : GlobalState :=
  { gs with param_store := [] }

/-- Modelled from the spec: set_deterministic_mode(seed) (line 105, utility
not under src) seeds the global torch random number generators with the
given seed. -/
def set_deterministic_mode (seed : Int) (gs : GlobalState) : GlobalState :=
  { gs with torch_seed := some seed }

/-- Embedding of trVAE.__init__ including its global side effects: lines
104-105 run pyro.clear_param_store and set_deterministic_mode before
anything else, then the instance fields are computed as in trVAE_init. -/
def trVAE_init_with_state (gs : GlobalState) (seed : Int)
    (data_dim : List Nat) (latent_dim : Nat) (coord : Int)
    (num_classes : Nat) (dx_prior dy_prior : ℚ)
    (encF : Mat → Mat × Mat) (decF : DecArgs → Mat) :
    GlobalState × Except String TRVAE :=
  (set_deterministic_mode seed (pyro_clear_param_store gs),
   trVAE_init data_dim latent_dim coord num_classes dx_prior dy_prior encF decF)

theorem isRect_map_len {z : Mat} {b w : Nat} (h : isRect z b w) :
    z.map (fun r => r.length) = List.replicate b w := by
  obtain ⟨h1, h2⟩ := h
  refine List.eq_replicate_iff.mpr ⟨by simp [h1], ?_⟩
  intro n hn
  simp only [List.mem_map] at hn
  obtain ⟨r, hr, rfl⟩ := hn
  exact h2 r hr

theorem isRect_map_take {z : Mat} {b w : Nat} (k : Nat) (h : isRect z b w) :
    isRect (z.map (fun r => r.take k)) b (min k w) := by
  obtain ⟨h1, h2⟩ := h
  refine ⟨by simp [h1], ?_⟩
  intro row hrow
  simp only [List.mem_map] at hrow
  obtain ⟨r, hr, rfl⟩ := hrow
  simp [List.length_take, h2 r hr]

theorem isRect_map_drop {z : Mat} {b w : Nat} (k : Nat) (h : isRect z b w) :
    isRect (z.map (fun r => r.drop k)) b (w - k) := by
  obtain ⟨h1, h2⟩ := h
  refine ⟨by simp [h1], ?_⟩
  intro row hrow
  simp only [List.mem_map] at hrow
  obtain ⟨r, hr, rfl⟩ := hrow
  simp [List.length_drop, h2 r hr]

theorem isRect_map_dropTake {z : Mat} {b w : Nat} (j k : Nat) (h : isRect z b w) :
    isRect (z.map (fun r => (r.drop j).take k)) b (min k (w - j)) := by
  obtain ⟨h1, h2⟩ := h
  refine ⟨by simp [h1], ?_⟩
  intro row hrow
  simp only [List.mem_map] at hrow
  obtain ⟨r, hr, rfl⟩ := hrow
  simp [List.length_take, List.length_drop, h2 r hr]

theorem matWidth_of_rect {z : Mat} {b w : Nat} (hb : 0 < b) (h : isRect z b w) :
    matWidth z = w := by
  obtain ⟨h1, h2⟩ := h
  cases z with
  | nil => simp at h1; omega
  | cons r t => exact h2 r (by simp)

/-- C3: for every latent tensor z of shape (batch, z_dim), split_latent
returns (phi, dx, z_content) by fixed slicing.  For 1D data with coord > 0,
dx = z[:, 0:1] and phi is Python None; for 2D data, coord = 1 gives
phi = z[:, 0] with an absent (zero-width placeholder) dx; coord = 2 gives
dx = z[:, 0:2] with an absent phi; coord = 3 gives phi = z[:, 0],
dx = z[:, 1:3].  In every mode the widths of phi, dx and z_content, with
absent parts counted as zero-width, sum to exactly z_dim. -/
theorem C3_split_latent_slices (m : TRVAE) (z : Mat) (b zd : Nat)
    (hb : 0 < b) (hrect : isRect z b zd) :
    (m.ndim = 1 → 0 < m.coord → 1 ≤ zd →
      m.split_latent z = (GeomPart.pyNone,
        GeomPart.mat (z.map (fun r => r.take 1)), z.map (fun r => r.drop 1))
      ∧ (m.split_latent z).1.isAbsent = true
      ∧ widthSum (m.split_latent z) = zd)
    ∧ (m.ndim = 2 → m.coord = 1 → 1 ≤ zd →
      m.split_latent z = (GeomPart.vec (z.map (fun r => r.headD 0)),
        GeomPart.scalar 0, z.map (fun r => r.drop 1))
      ∧ (m.split_latent z).2.1.isAbsent = true
      ∧ widthSum (m.split_latent z) = zd)
    ∧ (m.ndim = 2 → m.coord = 2 → 2 ≤ zd →
      m.split_latent z = (GeomPart.scalar 0,
        GeomPart.mat (z.map (fun r => r.take 2)), z.map (fun r => r.drop 2))
      ∧ (m.split_latent z).1.isAbsent = true
      ∧ widthSum (m.split_latent z) = zd)
    ∧ (m.ndim = 2 → m.coord = 3 → 3 ≤ zd →
      m.split_latent z = (GeomPart.vec (z.map (fun r => r.headD 0)),
        GeomPart.mat (z.map (fun r => (r.drop 1).take 2)), z.map (fun r => r.drop 3))
      ∧ widthSum (m.split_latent z) = zd) := by
  have hb' : 0 < b := hb
  refine ⟨?_, ?_, ?_, ?_⟩
  · intro h1 _ h3
    have hs : m.split_latent z = (GeomPart.pyNone,
        GeomPart.mat (z.map (fun r => r.take 1)), z.map (fun r => r.drop 1)) := by
      simp [TRVAE.split_latent, h1]
    refine ⟨hs, by rw [hs]; rfl, ?_⟩
    rw [hs]
    unfold widthSum
    simp only [GeomPart.width]
    rw [matWidth_of_rect (by simpa using hb) (isRect_map_take 1 hrect),
        matWidth_of_rect (by simpa using hb) (isRect_map_drop 1 hrect)]
    omega
  · intro h1 h2 h3
    have hs : m.split_latent z = (GeomPart.vec (z.map (fun r => r.headD 0)),
        GeomPart.scalar 0, z.map (fun r => r.drop 1)) := by
      simp [TRVAE.split_latent, h1, h2]
    refine ⟨hs, by rw [hs]; rfl, ?_⟩
    rw [hs]
    unfold widthSum
    simp only [GeomPart.width]
    rw [matWidth_of_rect (by simpa using hb) (isRect_map_drop 1 hrect)]
    omega
  · intro h1 h2 h3
    have hs : m.split_latent z = (GeomPart.scalar 0,
        GeomPart.mat (z.map (fun r => r.take 2)), z.map (fun r => r.drop 2)) := by
      simp [TRVAE.split_latent, h1, h2]
    refine ⟨hs, by rw [hs]; rfl, ?_⟩
    rw [hs]
    unfold widthSum
    simp only [GeomPart.width]
    rw [matWidth_of_rect (by simpa using hb) (isRect_map_take 2 hrect),
        matWidth_of_rect (by simpa using hb) (isRect_map_drop 2 hrect)]
    omega
  · intro h1 h2 h3
    have hs : m.split_latent z = (GeomPart.vec (z.map (fun r => r.headD 0)),
        GeomPart.mat (z.map (fun r => (r.drop 1).take 2)), z.map (fun r => r.drop 3)) := by
      simp [TRVAE.split_latent, h1, h2]
    refine ⟨hs, ?_⟩
    rw [hs]
    unfold widthSum
    simp only [GeomPart.width]
    rw [matWidth_of_rect (by simpa using hb) (isRect_map_dropTake 1 2 hrect),
        matWidth_of_rect (by simpa using hb) (isRect_map_drop 3 hrect)]
    omega

/-- Placeholder encoder network used by concrete witness instances. -/
def netE0 : Mat → Mat × Mat := fun x => (x, x)

/-- Placeholder decoder network used by concrete witness instances. -/
def netD0 : DecArgs → Mat := fun _ => []

/-- Concrete 2D instance with coord = 3 used by the C3 witness. -/
def mC3w : TRVAE :=
  { ndim := 2, coord := 3, z_dim := 5, num_classes := 0,
    grid := generate_grid [8, 8], t_prior := [1/10, 1/10],
    encoder_net := netE0, decoder_net := netD0,
    encoder_z := none, decoder := none }

/-- Witness for C3: the coord = 3 mode evaluated on a concrete 2 by 5
latent batch. -/
theorem C3_split_latent_slices_witness :
    mC3w.split_latent [[1, 2, 3, 4, 5], [6, 7, 8, 9, 10]] =
      (GeomPart.vec [1, 6], GeomPart.mat [[2, 3], [7, 8]], [[4, 5], [9, 10]])
    ∧ widthSum (mC3w.split_latent [[1, 2, 3, 4, 5], [6, 7, 8, 9, 10]]) = 5 := by
  have h := (C3_split_latent_slices mC3w [[1, 2, 3, 4, 5], [6, 7, 8, 9, 10]] 2 5
    (by decide) (by decide)).2.2.2 rfl rfl (by decide)
  refine ⟨?_, h.2⟩
  rw [h.1]
  decide


/-- Fallback instance used only to extract the payload of a successful
construction in witness statements. -/
def trvae_default : TRVAE :=
  { ndim := 0, coord := 0, z_dim := 0, num_classes := 0, grid := [],
    t_prior := [], encoder_net := fun _ => ([], []),
    decoder_net := fun _ => [], encoder_z := none, decoder := none }

theorem split_latent_oneD (m : TRVAE) (h : m.ndim = 1) (z : Mat) :
    m.split_latent z = (GeomPart.pyNone,
      GeomPart.mat (z.map (fun r => r.take 1)), z.map (fun r => r.drop 1)) := by
  simp [TRVAE.split_latent, h]

theorem trVAE_init_oneD_pos (data_dim : List Nat) (latent_dim : Nat) (coord : Int)
    (num_classes : Nat) (dxp dyp : ℚ) (encF : Mat → Mat × Mat) (decF : DecArgs → Mat)
    (h1 : data_dim.length = 1) (h2 : 0 < coord) :
    trVAE_init data_dim latent_dim coord num_classes dxp dyp encF decF =
      Except.ok
        { ndim := data_dim.length, coord := 1, z_dim := latent_dim + 1,
          num_classes := num_classes, grid := generate_grid data_dim,
          t_prior := if data_dim.length = 2 then [dxp, dyp] else [dxp],
          encoder_net := encF, decoder_net := decF,
          encoder_z := none, decoder := none } := by
  have hcol : (if data_dim.length = 1 ∧ 0 < coord then (1 : Int) else coord) = 1 := by
    simp [h1, h2]
  simp only [trVAE_init]
  rw [hcol]
  norm_num

/-- C4: for 1D data and every requested coord > 0, construction stores
coord = 1, and split_latent always returns phi = Python None together with
a width-1 dx slice z[:, 0:1], regardless of the requested coord value. -/
theorem C4_oneD_collapse (data_dim : List Nat) (latent_dim : Nat) (coord : Int)
    (num_classes : Nat) (dxp dyp : ℚ) (encF : Mat → Mat × Mat) (decF : DecArgs → Mat)
    (h1 : data_dim.length = 1) (h2 : 0 < coord) :
    ∃ m, trVAE_init data_dim latent_dim coord num_classes dxp dyp encF decF = Except.ok m
      ∧ m.coord = 1 ∧ m.ndim = 1
      ∧ (∀ z : Mat, m.split_latent z =
          (GeomPart.pyNone, GeomPart.mat (z.map (fun r => r.take 1)), z.map (fun r => r.drop 1)))
      ∧ (∀ z b zd, 0 < b → 1 ≤ zd → isRect z b zd →
          (m.split_latent z).1 = GeomPart.pyNone ∧ (m.split_latent z).2.1.width = 1) := by
  refine ⟨_, trVAE_init_oneD_pos data_dim latent_dim coord num_classes dxp dyp encF decF h1 h2,
    rfl, h1, ?_, ?_⟩
  · intro z
    exact split_latent_oneD _ h1 z
  · intro z b zd hb hzd hrect
    rw [split_latent_oneD _ h1 z]
    refine ⟨rfl, ?_⟩
    simp only [GeomPart.width]
    rw [matWidth_of_rect (by simpa using hb) (isRect_map_take 1 hrect)]
    omega

/-- Concrete 1D construction with requested coord = 7 used by the C4
witness. -/
def mC4w : TRVAE :=
  (trVAE_init [16] 2 7 0 (1/10) (1/10) netE0 netD0).toOption.getD trvae_default

/-- Witness for C4: requesting coord = 7 on 1D data succeeds, stores
coord = 1, and splits a concrete latent batch into Python None, the
width-1 leading slice and the remainder. -/
theorem C4_oneD_collapse_witness :
    mC4w.coord = 1
    ∧ mC4w.split_latent [[1, 2, 3]] = (GeomPart.pyNone, GeomPart.mat [[1]], [[2, 3]]) := by
  obtain ⟨m, hm, hc, hn, hsplit, _⟩ :=
    C4_oneD_collapse [16] 2 7 0 (1/10) (1/10) netE0 netD0 (by decide) (by decide)
  have hmw : mC4w = m := by
    unfold mC4w
    rw [hm]
    rfl
  refine ⟨by rw [hmw, hc], ?_⟩
  rw [hmw, hsplit]
  decide

/-- C2: for every coord outside {0, 1, 2, 3}, construction fails with the
configuration ValueError, with the sole exception of the documented 1D
collapse (1D data with coord > 0 stores coord = 1 instead); and a
successful construction never stores a silently altered coord other than
that collapse. -/
theorem C2_coord_validation (data_dim : List Nat) (latent_dim : Nat) (coord : Int)
    (num_classes : Nat) (dxp dyp : ℚ) (encF : Mat → Mat × Mat) (decF : DecArgs → Mat) :
    ((coord ≠ 0 ∧ coord ≠ 1 ∧ coord ≠ 2 ∧ coord ≠ 3) →
      (¬ (data_dim.length = 1 ∧ 0 < coord) →
        trVAE_init data_dim latent_dim coord num_classes dxp dyp encF decF =
          Except.error "ValueError: coord argument must be 0, 1, 2 or 3")
      ∧ ((data_dim.length = 1 ∧ 0 < coord) →
        ∃ m, trVAE_init data_dim latent_dim coord num_classes dxp dyp encF decF =
          Except.ok m ∧ m.coord = 1))
    ∧ (∀ m, trVAE_init data_dim latent_dim coord num_classes dxp dyp encF decF =
        Except.ok m →
        m.coord = (if data_dim.length = 1 ∧ 0 < coord then 1 else coord)) := by
  constructor
  · intro hout
    constructor
    · intro hno
      simp [trVAE_init, hno, hout.1, hout.2.1, hout.2.2.1, hout.2.2.2]
    · intro hyes
      exact ⟨_, trVAE_init_oneD_pos data_dim latent_dim coord num_classes dxp dyp
        encF decF hyes.1 hyes.2, rfl⟩
  · intro m hm
    simp only [trVAE_init] at hm
    by_cases hif : (if data_dim.length = 1 ∧ 0 < coord then (1 : Int) else coord) = 0
      ∨ (if data_dim.length = 1 ∧ 0 < coord then (1 : Int) else coord) = 1
      ∨ (if data_dim.length = 1 ∧ 0 < coord then (1 : Int) else coord) = 2
      ∨ (if data_dim.length = 1 ∧ 0 < coord then (1 : Int) else coord) = 3
    · rw [if_pos hif] at hm
      cases hm
      rfl
    · rw [if_neg hif] at hm
      cases hm

/-- Witness for C2: requesting coord = 5 for 2D data fails with the
configuration ValueError. -/
theorem C2_coord_validation_witness :
    trVAE_init [8, 8] 2 5 0 (1/10) (1/10) netE0 netD0 =
      Except.error "ValueError: coord argument must be 0, 1, 2 or 3" := by
  exact ((C2_coord_validation [8, 8] 2 5 0 (1/10) (1/10) netE0 netD0).1
    (by decide)).1 (by decide)

/-- C9: constructing a trVAE instance mutates global process state: it
clears the entire shared Pyro parameter store (erasing parameters
registered by previously constructed instances) and sets the global
random seed, so construction is not free of effects outside the new
instance. -/
theorem C9_construction_global_effects (gs : GlobalState) (seed : Int)
    (data_dim : List Nat) (latent_dim : Nat) (coord : Int) (num_classes : Nat)
    (dxp dyp : ℚ) (encF : Mat → Mat × Mat) (decF : DecArgs → Mat) :
    (trVAE_init_with_state gs seed data_dim latent_dim coord num_classes
      dxp dyp encF decF).1.param_store = []
    ∧ (trVAE_init_with_state gs seed data_dim latent_dim coord num_classes
      dxp dyp encF decF).1.torch_seed = some seed
    ∧ (gs.param_store ≠ [] →
      (trVAE_init_with_state gs seed data_dim latent_dim coord num_classes
        dxp dyp encF decF).1 ≠ gs) := by
  refine ⟨rfl, rfl, ?_⟩
  intro hne heq
  apply hne
  rw [← heq]
  rfl

/-- Witness for C9: constructing on a state holding one registered
parameter empties the store, sets seed 42, and changes the global state. -/
theorem C9_construction_global_effects_witness :
    (trVAE_init_with_state ⟨["decoder.w1"], none⟩ 42 [8, 8] 2 3 0 (1/10) (1/10)
      netE0 netD0).1.param_store = []
    ∧ (trVAE_init_with_state ⟨["decoder.w1"], none⟩ 42 [8, 8] 2 3 0 (1/10) (1/10)
      netE0 netD0).1.torch_seed = some 42
    ∧ (trVAE_init_with_state ⟨["decoder.w1"], none⟩ 42 [8, 8] 2 3 0 (1/10) (1/10)
      netE0 netD0).1 ≠ ⟨["decoder.w1"], none⟩ := by
  have h := C9_construction_global_effects ⟨["decoder.w1"], none⟩ 42 [8, 8] 2 3 0
    (1/10) (1/10) netE0 netD0
  exact ⟨h.1, h.2.1, h.2.2 (by decide)⟩

theorem save_weights_set_encoder_len (m : TRVAE) (fE : Mat → Mat × Mat)
    (he : m.encoder_z = none) :
    (save_weights (m.set_encoder fE)).length = (save_weights m).length + 1 := by
  simp only [save_weights, TRVAE.state_dict_keys, TRVAE.set_encoder, he]
  cases hd : m.decoder <;> simp

theorem save_weights_set_decoder_len (m : TRVAE) (fD : DecArgs → Mat)
    (hd : m.decoder = none) :
    (save_weights (m.set_decoder fD)).length = (save_weights m).length + 1 := by
  simp only [save_weights, TRVAE.state_dict_keys, TRVAE.set_decoder, hd]
  cases he : m.encoder_z <;> simp

/-- C10 as the code actually behaves (amended): the attributes written by
set_encoder (encoder_z) and set_decoder (decoder) are never read by the
data-path operations — split_latent, model, guide, the guide encoding,
encode, decode and manifold2d keep using encoder_net and decoder_net and
behave identically before and after either setter.  However, because
trVAE is an nn.Module, the assignment registers the passed network as a
submodule: on an instance that has not run the setter before, save_weights
afterwards writes one extra state entry, and load_weights strictly rejects
a checkpoint saved before the setter call — so persistence behavior does
change. -/
theorem C10_setters_effects (m : TRVAE) (fE : Mat → Mat × Mat)
    (fD : DecArgs → Mat) (rotFn : ℚ → Row → Row) (x z zm : Mat) (y : Option Mat)
    (inp : PyInput) (kw : Option Nat) (lg : Nat → Mat) (d lbl : Nat) :
    (m.encoder_z = none →
      (save_weights (m.set_encoder fE)).length = (save_weights m).length + 1)
    ∧ (m.decoder = none →
      (save_weights (m.set_decoder fD)).length = (save_weights m).length + 1)
    ∧ (m.encoder_z = none →
      load_weights (m.set_encoder fE) (save_weights m) =
        Except.error "RuntimeError: state_dict key mismatch")
    ∧ (m.decoder = none →
      load_weights (m.set_decoder fD) (save_weights m) =
        Except.error "RuntimeError: state_dict key mismatch")
    ∧ (m.set_encoder fE).encoder_z = some fE
    ∧ (m.set_decoder fD).decoder = some fD
    ∧ (m.set_encoder fE).encoder_net = m.encoder_net
    ∧ (m.set_encoder fE).decoder_net = m.decoder_net
    ∧ (m.set_decoder fD).encoder_net = m.encoder_net
    ∧ (m.set_decoder fD).decoder_net = m.decoder_net
    ∧ (m.set_encoder fE).split_latent z = m.split_latent z
    ∧ (m.set_decoder fD).split_latent z = m.split_latent z
    ∧ modelRun (m.set_encoder fE) rotFn x z y = modelRun m rotFn x z y
    ∧ modelRun (m.set_decoder fD) rotFn x z y = modelRun m rotFn x z y
    ∧ guideRun (m.set_encoder fE) x = guideRun m x
    ∧ guideRun (m.set_decoder fD) x = guideRun m x
    ∧ guideEncoded (m.set_encoder fE) x = guideEncoded m x
    ∧ guideEncoded (m.set_decoder fD) x = guideEncoded m x
    ∧ _encode (m.set_encoder fE) inp kw = _encode m inp kw
    ∧ _encode (m.set_decoder fD) inp kw = _encode m inp kw
    ∧ encode (m.set_encoder fE) inp kw = encode m inp kw
    ∧ encode (m.set_decoder fD) inp kw = encode m inp kw
    ∧ _decode (m.set_encoder fE) zm kw = _decode m zm kw
    ∧ _decode (m.set_decoder fD) zm kw = _decode m zm kw
    ∧ decode (m.set_encoder fE) inp y kw = decode m inp y kw
    ∧ decode (m.set_decoder fD) inp y kw = decode m inp y kw
    ∧ manifold2d lg (m.set_encoder fE) d lbl = manifold2d lg m d lbl
    ∧ manifold2d lg (m.set_decoder fD) d lbl = manifold2d lg m d lbl := by
  refine ⟨fun he => save_weights_set_encoder_len m fE he,
    fun hd => save_weights_set_decoder_len m fD hd, ?_, ?_,
    rfl, rfl, rfl, rfl, rfl, rfl, rfl, rfl, rfl, rfl, rfl, rfl,
    rfl, rfl, rfl, rfl, rfl, rfl, rfl, rfl, rfl, rfl, rfl, rfl⟩
  · intro he
    have hne : save_weights m ≠ (m.set_encoder fE).state_dict_keys := by
      intro hEq
      have hlen := congrArg List.length hEq
      have h2 := save_weights_set_encoder_len m fE he
      simp only [save_weights] at hlen h2
      omega
    simp only [load_weights]
    rw [if_neg hne]
  · intro hd
    have hne : save_weights m ≠ (m.set_decoder fD).state_dict_keys := by
      intro hEq
      have hlen := congrArg List.length hEq
      have h2 := save_weights_set_decoder_len m fD hd
      simp only [save_weights] at hlen h2
      omega
    simp only [load_weights]
    rw [if_neg hne]

/-- Counterexample for C10 as stated: on the concrete instance, calling
set_encoder changes the behavior of save_weights (an extra state entry is
written) and of load_weights (a checkpoint saved before the setter call
is now rejected), so not every other operation is left unchanged. -/
theorem C10_setters_effects_cex :
    save_weights mC3w = ["encoder_net", "decoder_net"]
    ∧ save_weights (mC3w.set_encoder netE0) = ["encoder_net", "decoder_net", "encoder_z"]
    ∧ save_weights (mC3w.set_decoder netD0) = ["encoder_net", "decoder_net", "decoder"]
    ∧ save_weights (mC3w.set_encoder netE0) ≠ save_weights mC3w
    ∧ load_weights mC3w (save_weights mC3w) = Except.ok ()
    ∧ load_weights (mC3w.set_encoder netE0) (save_weights mC3w) =
        Except.error "RuntimeError: state_dict key mismatch" := by
  exact ⟨rfl, rfl, rfl, by decide, rfl, rfl⟩

/-- Witness for C10: the setter effects evaluated on the concrete
instance, discharging the not-yet-set hypotheses. -/
theorem C10_setters_effects_witness :
    (save_weights (mC3w.set_encoder netE0)).length = (save_weights mC3w).length + 1
    ∧ (save_weights (mC3w.set_decoder netD0)).length = (save_weights mC3w).length + 1
    ∧ load_weights (mC3w.set_encoder netE0) (save_weights mC3w) =
        Except.error "RuntimeError: state_dict key mismatch"
    ∧ load_weights (mC3w.set_decoder netD0) (save_weights mC3w) =
        Except.error "RuntimeError: state_dict key mismatch" := by
  have h := C10_setters_effects mC3w netE0 netD0 (fun _ p => p) [] [] [] none
    (PyInput.tensor []) none (fun _ => []) 2 0
  exact ⟨h.1 rfl, h.2.1 rfl, h.2.2.1 rfl, h.2.2.2.1 rfl⟩

/-- C7 as the code actually behaves (amended): encode and _encode reject
inputs that are neither a tensor nor a DataLoader with a TypeError naming
the accepted forms; decode performs no such validation, and such inputs
fail there with an AttributeError raised by calling a tensor method on
the raw argument. -/
theorem C7_input_type_errors (m : TRVAE) (desc : String) (y : Option Mat)
    (kw : Option Nat) :
    _encode m (PyInput.other desc) kw =
      Except.error "TypeError: Pass data as torch.Tensor or DataLoader object"
    ∧ encode m (PyInput.other desc) kw =
      Except.error "TypeError: Pass data as torch.Tensor or DataLoader object"
    ∧ decode m (PyInput.other desc) y kw =
      Except.error "AttributeError: object has no attribute to" := by
  exact ⟨rfl, rfl, rfl⟩

/-- Counterexample for C7 as stated: a decode call on an input that is
neither a tensor nor a DataLoader fails with an AttributeError, not with
the TypeError naming the accepted forms. -/
theorem C7_input_type_errors_cex :
    decode mC3w (PyInput.other "list") none none =
      Except.error "AttributeError: object has no attribute to"
    ∧ decode mC3w (PyInput.other "list") none none ≠
      Except.error "TypeError: Pass data as torch.Tensor or DataLoader object" := by
  refine ⟨rfl, ?_⟩
  intro h
  rw [show decode mC3w (PyInput.other "list") none none =
    Except.error "AttributeError: object has no attribute to" from rfl] at h
  injection h with h2
  exact absurd h2 (by decide)

/-- Concrete four-row batch used to exhibit the dropped kwargs in encode. -/
def xC6 : Mat := [[1], [2], [3], [4]]

/-- C6 (code-bug evidence): encode accepts a batch-size option but does
not forward it to _encode (line 252), so the partition encode iterates
over is always the default one: with batch_size 2 requested, _encode
alone would split the four-row batch into two chunks, while encode still
processes it as the single default chunk, for every kwargs value. -/
theorem C6_encode_drops_kwargs :
    encode_batches (PyInput.tensor xC6) (some 2) = [xC6]
    ∧ _encode_batches (PyInput.tensor xC6) (some 2) = [[[1], [2]], [[3], [4]]]
    ∧ (∀ kw : Option Nat,
      encode_batches (PyInput.tensor xC6) kw = init_dataloader none xC6) := by
  exact ⟨by decide, by decide, fun kw => rfl⟩

/-- C8: provided the encoder network maps each batch element
independently, encoding a batch in one chunk and encoding it in k chunks
with the per-chunk outputs concatenated in order yield identical results,
both for the raw concatenated encoder output of _encode and for the
(z_loc, z_scale) pair returned by encode. -/
theorem C8_encode_chunk_invariant (m : TRVAE) (f1 f2 : Row → Row)
    (henc : ∀ b : Mat, m.encoder_net b = (b.map f1, b.map f2))
    (chunks : List Mat) (x : Mat) (hx : chunks.flatten = x) (kw kw2 : Option Nat) :
    _encode m (PyInput.dataloader chunks) kw = _encode m (PyInput.dataloader [x]) kw2
    ∧ encode m (PyInput.dataloader chunks) kw = encode m (PyInput.dataloader [x]) kw2 := by
  have hEB : ∀ b : Mat, encodeBatch m b = b.map (fun r => f1 r ++ f2 r) := by
    intro b
    simp only [encodeBatch, henc]
    rw [List.zipWith_map, List.zipWith_same]
  have hmain : (chunks.map (fun b => encodeBatch m b)).flatten =
      ([x].map (fun b => encodeBatch m b)).flatten := by
    simp only [hEB]
    rw [← List.map_flatten, hx]
    simp
  constructor
  · simp only [_encode]
    rw [hmain]
  · simp only [encode, _encode]
    rw [hmain]

/-- Witness for C8: a concrete two-row batch encoded as one chunk and as
two singleton chunks gives identical _encode and encode outputs. -/
theorem C8_encode_chunk_invariant_witness :
    _encode mC3w (PyInput.dataloader [[[1, 2]], [[3, 4]]]) (some 1) =
      _encode mC3w (PyInput.dataloader [[[1, 2], [3, 4]]]) none
    ∧ encode mC3w (PyInput.dataloader [[[1, 2]], [[3, 4]]]) (some 1) =
      encode mC3w (PyInput.dataloader [[[1, 2], [3, 4]]]) none := by
  exact C8_encode_chunk_invariant mC3w (fun r => r) (fun r => r)
    (fun b => by simp [mC3w, netE0]) [[[1, 2]], [[3, 4]]] [[1, 2], [3, 4]]
    (by decide) (some 1) none

theorem abs_list_sum_zero {l : Row} (h : (l.map (fun q => |q|)).sum = 0) :
    ∀ q ∈ l, q = 0 := by
  induction l with
  | nil => simp
  | cons a t ih =>
    simp only [List.map_cons, List.sum_cons] at h
    have hts : 0 ≤ (t.map (fun q => |q|)).sum := by
      apply List.sum_nonneg
      intro x hx
      simp only [List.mem_map] at hx
      obtain ⟨q, _, rfl⟩ := hx
      exact abs_nonneg q
    have ha : |a| = 0 := by
      have := abs_nonneg a
      linarith
    have ht : (t.map (fun q => |q|)).sum = 0 := by linarith
    intro q hq
    rcases List.mem_cons.mp hq with hqa | hqt
    · rw [hqa]
      exact abs_eq_zero.mp ha
    · exact ih ht q hqt

theorem abs_mat_sum_zero {dm : Mat}
    (h : (dm.map (fun r => (r.map (fun q => |q|)).sum)).sum = 0) :
    ∀ r ∈ dm, ∀ q ∈ r, q = 0 := by
  induction dm with
  | nil => simp
  | cons r0 t ih =>
    simp only [List.map_cons, List.sum_cons] at h
    have hr0 : 0 ≤ (r0.map (fun q => |q|)).sum := by
      apply List.sum_nonneg
      intro x hx
      simp only [List.mem_map] at hx
      obtain ⟨q, _, rfl⟩ := hx
      exact abs_nonneg q
    have hts : 0 ≤ (t.map (fun r => (r.map (fun q => |q|)).sum)).sum := by
      apply List.sum_nonneg
      intro x hx
      simp only [List.mem_map] at hx
      obtain ⟨r, _, rfl⟩ := hx
      apply List.sum_nonneg
      intro y hy
      simp only [List.mem_map] at hy
      obtain ⟨q, _, rfl⟩ := hy
      exact abs_nonneg q
    intro r hr q hq
    rcases List.mem_cons.mp hr with hra | hrt
    · subst hra
      exact abs_list_sum_zero (by linarith) q hq
    · exact ih (by linarith) r hrt q hq

theorem zipWith_add_allZero {q row : Row} (hlen : q.length ≤ row.length)
    (hz : ∀ c ∈ row, c = 0) :
    q.zipWith (fun c d => c + d) row = q := by
  induction q generalizing row with
  | nil => simp
  | cons a t ih =>
    cases row with
    | nil => simp at hlen
    | cons r0 rt =>
      have h0 : r0 = 0 := hz r0 (by simp)
      simp only [List.zipWith_cons_cons, h0, add_zero, List.cons.injEq, true_and]
      exact ih (by simpa using hlen) (fun c hc => hz c (by simp [hc]))

theorem getD_replicate_grid (g : Mat) {b i : Nat} (h : i < b) :
    (List.replicate b g).getD i [] = g := by
  rw [List.getD_eq_getElem _ _ (by simpa using h)]
  simp

theorem getD_map_zipmul (dm : Mat) (t : Row) (i : Nat) :
    (dm.map (fun r => r.zipWith (fun a b => a * b) t)).getD i [] =
      (dm.getD i []).zipWith (fun a b => a * b) t := by
  by_cases h : i < dm.length
  · rw [List.getD_eq_getElem _ _ (by simpa using h), List.getD_eq_getElem _ _ h]
    simp
  · rw [List.getD_eq_default _ _ (by simpa using not_lt.mp h),
        List.getD_eq_default _ _ (not_lt.mp h)]
    simp

/-- Shape compatibility of the dx component with a batch of b grids whose
points have width gw, needed only to state that adding an all-zero offset
leaves a point unchanged. -/
def dxWidthOK : GeomPart → Nat → Nat → Prop
  | GeomPart.mat dm, b, gw => b ≤ dm.length ∧ ∀ r ∈ dm, r.length = gw
  | _, _, _ => True

theorem rotAt_length {rotFn : ℚ → Row → Row}
    (hrot : ∀ a p, (rotFn a p).length = p.length) (phi : GeomPart) (i : Nat)
    (p : Row) : (rotAt rotFn phi i p).length = p.length := by
  cases phi <;> simp [rotAt, hrot]

/-- C5: in model with coord > 0, the translation offset applied to the
coordinate grid is the raw dx slice rescaled elementwise by the
translation prior t_prior (lines 153-154); and when dx is absent (a zero
placeholder) or all-zero (absolute sum zero), the rescale is skipped and
the transformed grid equals the purely rotational transform, unaffected
by dx. -/
theorem C5_translation_rescale_or_skip (m : TRVAE) (rotFn : ℚ → Row → Row)
    (z : Mat) (b : Nat) (phi dxg : GeomPart) (zc : Mat) (gw : Nat)
    (hcoord : 0 < m.coord) (hsplit : m.split_latent z = (phi, dxg, zc)) :
    (∀ dxm : Mat, dxg = GeomPart.mat dxm → geomSum dxg ≠ 0 →
      (∀ r ∈ dxm, r.length = m.t_prior.length) →
      coordStep m rotFn b z = Except.ok
        ((List.range b).map (fun i => m.grid.map (fun p =>
          (rotAt rotFn phi i p).zipWith (fun c d => c + d)
            ((dxm.getD i []).zipWith (fun a t => a * t) m.t_prior))), zc))
    ∧ (geomSum dxg = 0 →
      (∀ a p, (rotFn a p).length = p.length) →
      (∀ p ∈ m.grid, p.length = gw) →
      dxWidthOK dxg b gw →
      coordStep m rotFn b z = Except.ok
        (transform_coordinates rotFn (List.replicate b m.grid) phi GeomPart.pyNone, zc)) := by
  constructor
  · intro dxm hdx hnz hlen
    subst hdx
    simp only [coordStep, hsplit]
    rw [if_pos hnz]
    simp only [rescaleDx]
    rw [if_pos hlen]
    simp only [bind, Except.bind]
    congr 2
    simp only [transform_coordinates, List.length_replicate]
    apply List.map_congr_left
    intro i hi
    rw [getD_replicate_grid _ (List.mem_range.mp hi)]
    apply List.map_congr_left
    intro p hp
    simp only [offsetAt]
    rw [getD_map_zipmul]
  · intro hz0 hrot hgw hwok
    simp only [coordStep, hsplit]
    rw [if_neg (by simp [hz0])]
    simp only [bind, Except.bind, pure, Except.pure]
    congr 2
    simp only [transform_coordinates, List.length_replicate]
    apply List.map_congr_left
    intro i hi
    rw [getD_replicate_grid _ (List.mem_range.mp hi)]
    apply List.map_congr_left
    intro p hp
    have hqlen : (rotAt rotFn phi i p).length = gw := by
      rw [rotAt_length hrot]
      exact hgw p hp
    cases dxg with
    | pyNone => rfl
    | scalar s =>
        have hs : s = 0 := by
          simpa [geomSum, abs_eq_zero] using hz0
        simp [offsetAt, hs]
    | vec v =>
        have hv : ∀ q ∈ v, q = 0 := abs_list_sum_zero (by simpa [geomSum] using hz0)
        have hvi : v.getD i 0 = 0 := by
          by_cases h : i < v.length
          · rw [List.getD_eq_getElem _ _ h]
            exact hv _ (List.getElem_mem h)
          · exact List.getD_eq_default _ _ (not_lt.mp h)
        have hvi2 : (v[i]?).getD 0 = 0 := by
          rw [← List.getD_eq_getElem?_getD]
          exact hvi
        simp [offsetAt, hvi2]
    | mat dm =>
        obtain ⟨hblen, hrow⟩ := hwok
        have hall : ∀ r ∈ dm, ∀ q ∈ r, q = 0 :=
          abs_mat_sum_zero (by simpa [geomSum] using hz0)
        have hi' : i < dm.length := lt_of_lt_of_le (List.mem_range.mp hi) hblen
        have hmem : dm.getD i [] ∈ dm := by
          rw [List.getD_eq_getElem _ _ hi']
          exact List.getElem_mem hi'
        simp only [offsetAt]
        exact zipWith_add_allZero (by rw [hqlen, hrow _ hmem]) (hall _ hmem)

/-- Witness for C5: for the concrete coord = 3 instance and a one-sample
latent batch with nonzero dx = [2, 3], the geometric step of model
translates every grid point by the prior-rescaled offset
[2, 3] * [1/10, 1/10]. -/
theorem C5_translation_rescale_or_skip_witness :
    coordStep mC3w (fun _ p => p) 1 [[1, 2, 3, 4, 5]] = Except.ok
      ((List.range 1).map (fun i => mC3w.grid.map (fun p =>
        (rotAt (fun _ p => p) (GeomPart.vec [1]) i p).zipWith (fun c d => c + d)
          (([[2, 3]] : Mat).getD i [] |>.zipWith (fun a t => a * t) mC3w.t_prior))),
       [[4, 5]]) := by
  exact (C5_translation_rescale_or_skip mC3w (fun _ p => p) [[1, 2, 3, 4, 5]] 1
    (GeomPart.vec [1]) (GeomPart.mat [[2, 3]]) [[4, 5]] 2
    (by decide) (by decide)).1 [[2, 3]] rfl (by simp [geomSum]; norm_num) (by decide)

/-- The batch of four zero-images of shape (8, 8), flattened row-wise. -/
def xC1 : Mat := List.replicate 4 (List.replicate 64 (0 : ℚ))

theorem isRect_replicate (b w : Nat) (q : ℚ) :
    isRect (List.replicate b (List.replicate w q)) b w := by
  refine ⟨by simp, ?_⟩
  intro r hr
  rw [List.eq_of_mem_replicate hr]
  simp

theorem guideRun_ok (m : TRVAE) (x : Mat) (b w : Nat)
    (h1 : isRect (m.encoder_net x).1 b w) (h2 : isRect (m.encoder_net x).2 b w) :
    guideRun m x = Except.ok none := by
  unfold guideRun guideEncoded
  rw [if_pos]
  rw [isRect_map_len h1, isRect_map_len h2]

theorem modelRun_ok_coord3 (m : TRVAE) (rotFn : ℚ → Row → Row) (x z : Mat)
    (hnd : m.ndim = 2) (hc : m.coord = 3) (htp : m.t_prior.length = 2)
    (hx : isRect x 4 64) (hz : isRect z 4 5)
    (hdec : ∀ grids zc, isRect zc 4 2 →
      isRect (m.decoder_net (DecArgs.withCoords grids zc)) 4 64) :
    ∃ loc, modelRun m rotFn x z none = Except.ok loc := by
  have hsplit : m.split_latent z = (GeomPart.vec (z.map (fun r => r.headD 0)),
      GeomPart.mat (z.map (fun r => (r.drop 1).take 2)), z.map (fun r => r.drop 3)) := by
    simp [TRVAE.split_latent, hnd, hc]
  have hdxrect : isRect (z.map (fun r => (r.drop 1).take 2)) 4 2 := by
    simpa using isRect_map_dropTake 1 2 hz
  have hzc : isRect (z.map (fun r => r.drop 3)) 4 2 := by
    simpa using isRect_map_drop 3 hz
  have hcs : ∃ grids, coordStep m rotFn x.length z =
      Except.ok (grids, z.map (fun r => r.drop 3)) := by
    simp only [coordStep, hsplit]
    by_cases hnz : geomSum (GeomPart.mat (z.map (fun r => (r.drop 1).take 2))) ≠ 0
    · rw [if_pos hnz]
      simp only [rescaleDx]
      rw [if_pos]
      · simp only [bind, Except.bind]
        exact ⟨_, rfl⟩
      · intro r hr
        rw [htp]
        exact hdxrect.2 r hr
    · rw [if_neg hnz]
      simp only [bind, Except.bind, pure, Except.pure]
      exact ⟨_, rfl⟩
  obtain ⟨grids, hcs⟩ := hcs
  have hcoord : (0 : Int) < m.coord := by rw [hc]; norm_num
  simp only [modelRun]
  rw [if_pos hcoord, hcs]
  simp only [bind, Except.bind, pure, Except.pure, catLabel]
  have hcond : (m.decoder_net (DecArgs.withCoords grids
      (z.map (fun r => r.drop 3)))).map (fun r => r.length) =
      x.map (fun r => r.length) := by
    rw [isRect_map_len (hdec grids _ hzc), isRect_map_len hx]
  rw [if_pos hcond]
  exact ⟨_, rfl⟩

/-- C1 as the code actually behaves (amended): with data_dim = (8, 8),
latent_dim = 2, coord = 3, encoder and decoder collaborators meeting
their interface contracts, and a latent sample of the prior shape (4, 5),
construction succeeds with z_dim = 5, guide(x) and model(x) run without
raising on the batch of four zero-images, and the encoded (z_loc, z_scale)
pair computed inside guide has shape (4, 5) each; guide itself, however,
returns Python None rather than that pair. -/
theorem C1_scenario (encF : Mat → Mat × Mat) (decF : DecArgs → Mat)
    (rotFn : ℚ → Row → Row) (z : Mat) (dxp dyp : ℚ)
    (hencL : isRect (encF xC1).1 4 5) (hencS : isRect (encF xC1).2 4 5)
    (hdec : ∀ grids zc, isRect zc 4 2 →
      isRect (decF (DecArgs.withCoords grids zc)) 4 64)
    (hz : isRect z 4 5) :
    ∃ m, trVAE_init [8, 8] 2 3 0 dxp dyp encF decF = Except.ok m
      ∧ m.z_dim = 5
      ∧ guideRun m xC1 = Except.ok none
      ∧ guideEncoded m xC1 = encF xC1
      ∧ isRect (guideEncoded m xC1).1 4 5
      ∧ isRect (guideEncoded m xC1).2 4 5
      ∧ ∃ loc, modelRun m rotFn xC1 z none = Except.ok loc := by
  refine ⟨{ ndim := 2, coord := 3, z_dim := 5, num_classes := 0,
            grid := generate_grid [8, 8], t_prior := [dxp, dyp],
            encoder_net := encF, decoder_net := decF,
            encoder_z := none, decoder := none },
          by rfl, rfl, guideRun_ok _ _ 4 5 hencL hencS, rfl, hencL, hencS, ?_⟩
  exact modelRun_ok_coord3 _ rotFn xC1 z rfl rfl rfl (isRect_replicate 4 64 0) hz hdec

/-- Concrete encoder meeting the interface contract at the C1 scenario:
maps any batch to (zeros, ones) rows of width z_dim = 5. -/
def encC1 : Mat → Mat × Mat := fun x =>
  (x.map (fun _ => List.replicate 5 (0 : ℚ)), x.map (fun _ => List.replicate 5 (1 : ℚ)))

/-- Concrete decoder meeting the interface contract at the C1 scenario:
returns a 4 by 64 zero reconstruction. -/
def decC1 : DecArgs → Mat := fun _ => List.replicate 4 (List.replicate 64 (0 : ℚ))

/-- Identity stand-in for the planar rotation primitive. -/
def rotId : ℚ → Row → Row := fun _ p => p

/-- A latent sample of the prior shape (4, 5) at the C1 scenario. -/
def zC1 : Mat := List.replicate 4 (List.replicate 5 (1 : ℚ))

/-- The C1 scenario instance: data_dim (8, 8), latent_dim 2, coord 3. -/
def mC1 : TRVAE :=
  (trVAE_init [8, 8] 2 3 0 (1/10) (1/10) encC1 decC1).toOption.getD trvae_default

/-- Whether a fallible computation succeeded. -/
def exceptIsOk {α : Type} : Except String α → Bool
  | Except.ok _ => true
  | Except.error _ => false

/-- Counterexample for C1 as stated: at the concrete scenario the guide
call succeeds but returns Python None, not the encoded (z_loc, z_scale)
pair it computes internally. -/
theorem C1_scenario_cex :
    guideRun mC1 xC1 = Except.ok none
    ∧ guideRun mC1 xC1 ≠ Except.ok (some (guideEncoded mC1 xC1)) := by
  have h1 : guideRun mC1 xC1 = Except.ok none := rfl
  exact ⟨h1, by rw [h1]; simp⟩

/-- Witness for C1: the amended scenario instantiated with concrete
contract-satisfying encoder and decoder collaborators. -/
theorem C1_scenario_witness :
    mC1.z_dim = 5
    ∧ guideRun mC1 xC1 = Except.ok none
    ∧ guideEncoded mC1 xC1 = encC1 xC1
    ∧ isRect (guideEncoded mC1 xC1).1 4 5
    ∧ isRect (guideEncoded mC1 xC1).2 4 5
    ∧ exceptIsOk (modelRun mC1 rotId xC1 zC1 none) = true := by
  obtain ⟨m, hm, hzd, hg, hge, hr1, hr2, loc, hloc⟩ :=
    C1_scenario encC1 decC1 rotId zC1 (1/10) (1/10)
      (by decide) (by decide) (fun _ _ _ => isRect_replicate 4 64 0) (by decide)
  have hmw : mC1 = m := by
    unfold mC1
    rw [hm]
    rfl
  rw [hmw]
  exact ⟨hzd, hg, hge, hr1, hr2, by rw [hloc]; rfl⟩
